import Mathlib

/-!
Verification of the shibsp-redis storage plugin.

The development shallowly embeds the parts of the plugin that the checked
properties talk about:

* the CRC16-XMODEM hash-slot computation (`src/redis-crc-16.h`,
  `src/storage-id.h`),
* the rendered Redis keys and the Redis hash-tag slot rule,
* the `ClusterRange` comparators (`src/cluster-range.h`),
* the reply-error classifier (`src/redis-connection.cpp`),
* the versioned storage operations `set`, `forceGet`, `updateVersioned`
  (`src/redis-connection.cpp`) against a small model of the Redis server
  state for one storage id,
* the cluster router: construction from seed nodes, slot-map lookup,
  connection dispatch and the retry back-off
  (`src/redis-cluster.cpp`, `src/redis-cluster.h`).

Machine integers are modelled as `Nat`/`Int` with explicit `% 2 ^ 32`
(resp. `% 2 ^ 64`) where the C++ unsigned arithmetic can wrap.
-/

namespace spredis

/-! ## CRC16-XMODEM (`src/redis-crc-16.h`) -/

/-- Opening curly brace character (written via its code point so that the
character never appears literally in the file). -/
def lbrace : Char := Char.ofNat 123

/-- Closing curly brace character. -/
def rbrace : Char := Char.ofNat 125

namespace RedisCrc16

/-- Modelled from the spec: one shift-and-conditionally-xor round of the
CRC16-XMODEM polynomial `0x1021` on a 16-bit register.  The source declares
the lookup table `RedisCrc16::Crc16Constants` in `redis-crc-16.h` but its
256 constants are defined in a translation unit that is not among the given
sources; the spec fixes the algorithm as CRC16-XMODEM with polynomial
`0x1021`, no reflection and no final xor, from which each table entry is
derived by eight of these rounds. -/
def polyRound (v : Nat) : Nat :=
  if v &&& 0x8000 ≠ 0 then ((v <<< 1) ^^^ 0x1021) &&& 0xFFFF else (v <<< 1) &&& 0xFFFF

/-- Modelled from the spec: entry `b` of the CRC16-XMODEM lookup table
`RedisCrc16::Crc16Constants` (see `polyRound`). -/
def Crc16Constants (b : Nat) : Nat :=
  polyRound^[8] ((b &&& 0xFF) <<< 8)

/-- Modelled from the spec: `RedisCrc16::Initial`, the initial CRC register
value.  Declared in `redis-crc-16.h`; the spec states the initial value is
`0`. -/
def Initial : Nat := 0

/-- Modelled from the spec: `RedisCrc16::HashSlotCount`.  Declared in
`redis-crc-16.h`; the spec states the slot count `16384`. -/
def HashSlotCount : Nat := 16384

/-- The call operator of `RedisCrc16` (`redis-crc-16.h`):
`(accumulator << 8U & 0xFFFF) ^ Crc16Constants[(accumulator >> 8U ^ byte) & 0xFF]`. -/
def step (accumulator : Nat) (byte : Char) : Nat :=
  ((accumulator <<< 8) &&& 0xFFFF)
    ^^^ Crc16Constants (((accumulator >>> 8) ^^^ byte.toNat) &&& 0xFF)

/-- `RedisCrc16::calculate`: `std::accumulate` of `step` over the byte range,
starting from `initial`. -/
def calculate (bytes : List Char) (initial : Nat) : Nat :=
  bytes.foldl step initial

theorem calculate_append (a b : List Char) (initial : Nat) :
    calculate (a ++ b) initial = calculate b (calculate a initial) :=
  List.foldl_append step initial a b

end RedisCrc16

/-! ## StorageId (`src/storage-id.h`) -/

/-- `StorageId`: the composite identifier `(context, key, prefix)`.  The C++
class stores three C strings; they are modelled as byte (character) lists.
The prefix member is named `pfx` here because `prefix` is a Lean keyword. -/
structure StorageId where
  context : List Char
  key : List Char
  pfx : List Char
deriving DecidableEq, Repr

/-- `StorageId::hashSlotUsing<RedisCrc16>()`: streams the CRC through
context, a single colon, prefix and key, then reduces modulo
`HashSlotCount`. -/
def StorageId.hashSlotUsing (id : StorageId) : Nat :=
  let context := RedisCrc16.calculate id.context RedisCrc16.Initial
  let colon := RedisCrc16.calculate [':'] context
  let pfx := RedisCrc16.calculate id.pfx colon
  let total := RedisCrc16.calculate id.key pfx
  total % RedisCrc16.HashSlotCount

theorem hashSlotUsing_eq_concat (id : StorageId) :
    id.hashSlotUsing
      = RedisCrc16.calculate (id.context ++ [':'] ++ id.pfx ++ id.key)
          RedisCrc16.Initial % RedisCrc16.HashSlotCount := by
  simp only [StorageId.hashSlotUsing, RedisCrc16.calculate_append]

/-- C5 — the hash slot of a `StorageId` is the CRC16-XMODEM of the
concatenated bytes `context ++ ":" ++ prefix ++ key` taken mod 16384; the
piecewise streamed CRC agrees with the CRC of the materialized
concatenation; `crc16_xmodem("123456789") = 0x31C3` and
`crc16("foo") mod 16384 = 12182`. -/
theorem hashSlot_is_crc16_xmodem_mod_16384 :
    (∀ id : StorageId,
      id.hashSlotUsing
        = RedisCrc16.calculate (id.context ++ [':'] ++ id.pfx ++ id.key)
            RedisCrc16.Initial % 16384)
    ∧ (∀ (a b : List Char) (initial : Nat),
      RedisCrc16.calculate (a ++ b) initial
        = RedisCrc16.calculate b (RedisCrc16.calculate a initial))
    ∧ RedisCrc16.calculate "123456789".data RedisCrc16.Initial = 0x31C3
    ∧ RedisCrc16.calculate "foo".data RedisCrc16.Initial % 16384 = 12182 :=
  ⟨fun id => hashSlotUsing_eq_concat id, RedisCrc16.calculate_append,
    by decide, by decide⟩

/-! ## Rendered keys and the Redis hash-tag rule -/

/-- The rendered data key, following `SPREDIS_SID_FMT` (`storage-id.h`):
the printf pattern is an opening brace, `%s:%s%s` filled with context,
prefix, key (`SPREDIS_SID_FPARAM`), and a closing brace. -/
def StorageId.renderDataKey (id : StorageId) : List Char :=
  lbrace :: ((id.context ++ [':'] ++ id.pfx ++ id.key) ++ [rbrace])

/-- The rendered companion version key: the literal `version.of:` followed
by the rendered data key (`redis-connection.cpp`). -/
def StorageId.renderVersionKey (id : StorageId) : List Char :=
  "version.of:".data ++ id.renderDataKey

/-- Modelled from the spec: the hash-tag region of a Redis key.  The Redis
server itself is not part of this repository; the spec states that `{...}`
denotes the hash-tag convention, so the CRC16 is computed only over the
substring between the first opening brace and the first closing brace after
it, and over the whole key when there is no such pair. -/
def hashTagContent (k : List Char) : List Char :=
  let tagged := k.dropWhile (fun c => !(c == lbrace))
  if tagged = [] then k
  else if rbrace ∈ tagged.tail then tagged.tail.takeWhile (fun c => !(c == rbrace))
  else k

/-- Modelled from the spec: the hash slot Redis assigns to a key, CRC16 of
its hash-tag region mod 16384. -/
def redisKeyHashSlot (k : List Char) : Nat :=
  RedisCrc16.calculate (hashTagContent k) RedisCrc16.Initial % RedisCrc16.HashSlotCount

theorem takeWhile_append_rbrace (l : List Char) (h : rbrace ∉ l) :
    (l ++ [rbrace]).takeWhile (fun c => !(c == rbrace)) = l := by
  induction l with
  | nil => simp [List.takeWhile]
  | cons a t ih =>
    simp only [List.mem_cons, not_or] at h
    have ha : (a == rbrace) = false := beq_eq_false_iff_ne.mpr fun e => h.1 e.symm
    simp [List.takeWhile, ha, ih h.2]

theorem dropWhile_append_of_all (p : Char → Bool) (pre l : List Char)
    (h : ∀ c ∈ pre, p c = true) :
    (pre ++ l).dropWhile p = l.dropWhile p := by
  induction pre with
  | nil => rfl
  | cons a t ih =>
    simp only [List.mem_cons] at h
    simp [List.dropWhile, h a (Or.inl rfl), ih fun c hc => h c (Or.inr hc)]

theorem hashTagContent_braced (pre l : List Char) (hpre : ∀ c ∈ pre, c ≠ lbrace) :
    hashTagContent (pre ++ lbrace :: (l ++ [rbrace]))
      = (l ++ [rbrace]).takeWhile (fun c => !(c == rbrace)) := by
  have hdrop : (pre ++ lbrace :: (l ++ [rbrace])).dropWhile (fun c => !(c == lbrace))
      = lbrace :: (l ++ [rbrace]) := by
    rw [dropWhile_append_of_all _ pre _ fun c hc => by simp [hpre c hc]]
    simp [List.dropWhile]
  simp only [hashTagContent, hdrop]
  simp

theorem hashTagContent_renderDataKey (id : StorageId) :
    hashTagContent id.renderDataKey
      = ((id.context ++ [':'] ++ id.pfx ++ id.key) ++ [rbrace]).takeWhile
          (fun c => !(c == rbrace)) := by
  have h := hashTagContent_braced [] (id.context ++ [':'] ++ id.pfx ++ id.key)
    (by simp)
  simpa [StorageId.renderDataKey] using h

theorem hashTagContent_renderVersionKey (id : StorageId) :
    hashTagContent id.renderVersionKey = hashTagContent id.renderDataKey := by
  have h := hashTagContent_braced "version.of:".data
    (id.context ++ [':'] ++ id.pfx ++ id.key) (by decide)
  rw [hashTagContent_renderDataKey, StorageId.renderVersionKey,
    StorageId.renderDataKey, h]

/-- C6 (amended) — for every `StorageId` whose context, prefix and key are
free of the closing-brace character, the client-side slot equals the slot
Redis assigns to the rendered data key under the hash-tag rule; and for
every `StorageId` whatsoever, the rendered data key and its companion
version key land in the same slot. -/
theorem clientSlot_matches_redis_hashtag_slot :
    (∀ id : StorageId,
      rbrace ∉ id.context → rbrace ∉ id.pfx → rbrace ∉ id.key →
      redisKeyHashSlot id.renderDataKey = id.hashSlotUsing)
    ∧ ∀ id : StorageId,
      redisKeyHashSlot id.renderVersionKey = redisKeyHashSlot id.renderDataKey := by
  constructor
  · intro id h1 h2 h3
    have hmem : rbrace ∉ id.context ++ [':'] ++ id.pfx ++ id.key := by
      simp only [List.mem_append, not_or]
      exact ⟨⟨⟨h1, by decide⟩, h2⟩, h3⟩
    rw [redisKeyHashSlot, hashTagContent_renderDataKey, hashSlotUsing_eq_concat,
      takeWhile_append_rbrace _ hmem]
  · intro id
    rw [redisKeyHashSlot, redisKeyHashSlot, hashTagContent_renderVersionKey]

/-- C6 counterexample — for the `StorageId` with context `a}b`, empty prefix
and empty key, the client-side slot (CRC over `a}b:`, slot 3950) differs from
the slot Redis assigns to the rendered data key `{a}b:}` under the hash-tag
rule (CRC over `a` only, slot 15495). -/
theorem clientSlot_redis_slot_mismatch_on_brace :
    redisKeyHashSlot (StorageId.renderDataKey ⟨['a', rbrace, 'b'], [], []⟩)
      ≠ StorageId.hashSlotUsing ⟨['a', rbrace, 'b'], [], []⟩ := by decide

/-- Witness for the amended C6 theorem at a concrete identifier. -/
theorem clientSlot_matches_redis_hashtag_slot_witness :
    rbrace ∉ "u".data ∧ rbrace ∉ "p:".data ∧ rbrace ∉ "a".data ∧
      redisKeyHashSlot (StorageId.renderDataKey ⟨"u".data, "a".data, "p:".data⟩)
        = StorageId.hashSlotUsing ⟨"u".data, "a".data, "p:".data⟩ :=
  ⟨by decide, by decide, by decide,
    clientSlot_matches_redis_hashtag_slot.1 ⟨"u".data, "a".data, "p:".data⟩
      (by decide) (by decide) (by decide)⟩

/-! ## ClusterRange (`src/cluster-range.h`) -/

/-- `ClusterRange<RedisCrc16, 16384>`: an inclusive hash-slot interval.
The constructor validation (`m_end < m_start` or `16384 <= m_end` throw) is
carried separately by `ClusterRange.valid`. -/
structure ClusterRange where
  m_start : Nat
  m_end : Nat
deriving DecidableEq, Repr

/-- The constructor precondition of `ClusterRange`: it throws unless
`start ≤ end < HashSlots`. -/
def ClusterRange.valid (r : ClusterRange) : Prop :=
  r.m_start ≤ r.m_end ∧ r.m_end < 16384

/-- `ClusterRange::compare(const ClusterRange&)`: lexicographic comparison by
`(start, end)` into `{-1, 0, 1}`. -/
def ClusterRange.compare (a rhs : ClusterRange) : Int :=
  if a.m_start < rhs.m_start then -1
  else if a.m_start > rhs.m_start then 1
  else if a.m_end < rhs.m_end then -1
  else if a.m_end > rhs.m_end then 1
  else 0

/-- `ClusterRange::compare(const StorageId&)`: `1` when the id's slot is
below the range, `-1` when above, `0` when contained. -/
def ClusterRange.compareId (a : ClusterRange) (id : StorageId) : Int :=
  let hashSlot := id.hashSlotUsing % 16384
  if hashSlot < a.m_start then 1
  else if hashSlot > a.m_end then -1
  else 0

/-- `ClusterRange::operator<`: `compare(rhs) < 0`. -/
def ClusterRange.opLt (a rhs : ClusterRange) : Bool :=
  a.compare rhs < 0

/-- `ClusterRange::operator<=` as written in the source: it also returns
`compare(rhs) < 0` (not `<= 0`). -/
def ClusterRange.opLe (a rhs : ClusterRange) : Bool :=
  a.compare rhs < 0

/-- C10 — evaluation at the failing input: for the range `[0,0]` compared
with itself, `compare` returns `0`, yet the source's `operator<=` returns
`false`, so `a <= a` fails even though `compare(a, a) ≤ 0`; the containment
comparator itself does return `1`/`-1`/`0` for a below/above/contained id
slot (shown against the id `(foo, "", "")` whose slot is `1308`). -/
theorem slotRange_le_is_strict_in_source :
    ClusterRange.compare ⟨0, 0⟩ ⟨0, 0⟩ = 0
    ∧ ClusterRange.opLe ⟨0, 0⟩ ⟨0, 0⟩ = false
    ∧ ClusterRange.compareId ⟨1309, 16383⟩ ⟨"foo".data, [], []⟩ = 1
    ∧ ClusterRange.compareId ⟨0, 1307⟩ ⟨"foo".data, [], []⟩ = -1
    ∧ ClusterRange.compareId ⟨1308, 1308⟩ ⟨"foo".data, [], []⟩ = 0 := by
  refine ⟨by decide, by decide, ?_, ?_, ?_⟩ <;> decide

/-! ## Reply-error classifier (`src/redis-connection.cpp`) -/

/-- The error kinds the connection layer can raise from a command error
reply: `ConnectionLostException`, `RedirectedException(host, port)` and the
generic `IOException` (the spec's *Protocol*); `oobRead` marks an access
past the end of a `redisReply` element array, which is undefined behavior
in the source. -/
inductive RedisFault where
  | connectionLost
  | redirected (host : List Char) (port : Nat)
  | ioError
  | oobRead
deriving DecidableEq, Repr

/-- Model of `std::string::find(char, pos)`: index of the first occurrence
at or after `pos`, `none` for `npos`. -/
def stringFind (s : List Char) (c : Char) (pos : Nat) : Option Nat :=
  match (s.drop pos).findIdx? (· == c) with
  | some i => some (pos + i)
  | none => none

/-- Conversion of the `Option` result of `stringFind` to the `size_t` value
the source manipulates: `npos` is `2^64 - 1`. -/
def sizeT : Option Nat → Nat
  | some i => i
  | none => 2 ^ 64 - 1

/-- Wrapping `size_t` subtraction. -/
def sub64 (a b : Nat) : Nat :=
  (a + (2 ^ 64 - b % 2 ^ 64)) % 2 ^ 64

/-- Model of `std::stoul` on base 10: skip whitespace, optional sign,
at least one digit (`none` = `std::invalid_argument`), value out of
`unsigned long` range is `none` (= `std::out_of_range`), a minus sign
negates modulo `2^64`. -/
def stoul (s : List Char) : Option Nat :=
  let t := s.dropWhile Char.isWhitespace
  let signAndRest : Bool × List Char :=
    match t with
    | '-' :: r => (true, r)
    | '+' :: r => (false, r)
    | r => (false, r)
  let digits := signAndRest.2.takeWhile Char.isDigit
  if digits = [] then none
  else
    let v := digits.foldl (fun a c => a * 10 + (c.toNat - 48)) 0
    if v ≥ 2 ^ 64 then none
    else if signAndRest.1 then some ((2 ^ 64 - v) % 2 ^ 64) else some v

/-- `RedisConnection::handlePotentialMovedError`: `none` when the error does
not start with `MOVED ` (the caller then falls through to the generic
error); otherwise the parsed `RedirectedException`.  The parsed port is the
`stoul` of the text after the colon (converted `unsigned long` →
`unsigned int`), `6379` when that parse throws; the host is the text
between the space after position 7 and the colon, with `std::string::npos`
taking part in the `size_t` index arithmetic exactly as in the source. -/
def handlePotentialMovedError (err_str : List Char) : Option RedisFault :=
  if err_str.take 6 ≠ "MOVED ".data then none
  else
    let spaceBeforeLocation := sizeT (stringFind err_str ' ' 7)
    let portColonLocation := sizeT (stringFind err_str ':' spaceBeforeLocation)
    let port : Nat :=
      match stoul (err_str.drop ((portColonLocation + 1) % 2 ^ 64)) with
      | some p => p % 2 ^ 32
      | none => 6379
    some (.redirected
      ((err_str.drop ((spaceBeforeLocation + 1) % 2 ^ 64)).take
        (sub64 (sub64 portColonLocation spaceBeforeLocation) 1))
      port)

/-- `RedisConnection::handleCommandError` for an error reply `err_str`:
an error longer than `sizeof("CLUSTERDO")` (= 10) raises
`ConnectionLostException`; otherwise one longer than `sizeof("MOVED")`
(= 6) is given to the MOVED parser; anything left raises `IOException`. -/
def handleCommandError (err_str : List Char) : RedisFault :=
  if err_str.length > 10 then .connectionLost
  else if err_str.length > 6 then
    match handlePotentialMovedError err_str with
    | some f => f
    | none => .ioError
  else .ioError

/-- C1 — evaluation at the failing inputs: a real `MOVED <slot> <host>:<port>`
error is longer than 10 bytes, so the classifier raises *ConnectionLost*
instead of *Redirected*; an ordinary error reply longer than 10 bytes also
becomes *ConnectionLost* instead of *Protocol*.  Only the `CLUSTERDOWN`
clause of the claim matches the code, and the MOVED parser (with its 6379
port default on parse error) is reachable only for MOVED errors of 7 to 10
bytes. -/
theorem handleCommandError_eval :
    handleCommandError "MOVED 7000 127.0.0.1:6380".data = RedisFault.connectionLost
    ∧ handleCommandError "ERR unknown cmd".data = RedisFault.connectionLost
    ∧ handleCommandError "CLUSTERDOWN The cluster is down".data
        = RedisFault.connectionLost
    ∧ handleCommandError "MOVED 1 a:".data = RedisFault.redirected ['a'] 6379
    ∧ handleCommandError "WRONG".data = RedisFault.ioError := by
  exact ⟨by decide, by decide, by decide, by decide, by decide⟩

/-! ## Cluster router (`src/redis-cluster.cpp`, `src/redis-cluster.h`) -/

/-- `ClusterNode`: a `(host, port)` value with structural equality. -/
structure ClusterNode where
  host : List Char
  port : Nat
deriving DecidableEq, Repr

/-- The slot map `cluster_map_type`: a `boost::container::flat_map` ordered
by `ClusterCompareLess` (that is, by `ClusterRange::operator<`), modelled as
the sorted association list backing the flat map. -/
abbrev ClusterMap := List (ClusterRange × ClusterNode)

/-- `flat_map::insert_or_assign` on the sorted backing sequence: walk to the
ordered position; an equivalent key (`!(r < r') && !(r' < r)`) has its mapped
node assigned, otherwise the pair is inserted in order. -/
def clusterMapInsertOrAssign : ClusterMap → ClusterRange → ClusterNode → ClusterMap
  | [], r, n => [(r, n)]
  | (r', n') :: rest, r, n =>
    if ClusterRange.opLt r r' then (r, n) :: (r', n') :: rest
    else if ClusterRange.opLt r' r then (r', n') :: clusterMapInsertOrAssign rest r n
    else (r', n) :: rest

/-- `RedisCluster::CacheSetter` applied to every `(range, node)` row that
`RedisConnection::iterateSlots` yields: each row is
`insert_or_assign`-ed into the cluster map. -/
def cacheSetterFold (m : ClusterMap) (rows : List (ClusterRange × ClusterNode)) :
    ClusterMap :=
  rows.foldl (fun acc e => clusterMapInsertOrAssign acc e.1 e.2) m

/-- `RedisCluster::RedisCluster` seed loop: under the write lock, each
configured seed in order either throws somewhere in
`node.connect(config)` / `conn->iterateSlots(CacheSetter(this))` — both
`catch` arms log and continue — or delivers the rows of `CLUSTER SLOTS`,
which populate the map, and the loop `break`s.  A seed attempt is abstracted
as `none` (threw) or `some rows` (answered).  The constructor body contains
no check after the loop: it never throws on seed exhaustion. -/
def redisClusterInit : List (Option (List (ClusterRange × ClusterNode))) → ClusterMap
  | [] => []
  | none :: rest => redisClusterInit rest
  | some rows :: _ => cacheSetterFold [] rows

/-- C2 — evaluation at the failing input: with every seed failing, the
constructor completes normally with an empty slot map instead of failing
with *Fatal*; with a failing seed followed by an answering one, the map is
populated from the first seed that answers. -/
theorem redisClusterInit_seed_exhaustion_completes :
    redisClusterInit [none, none, none] = []
    ∧ redisClusterInit
        [none, some [(⟨0, 8191⟩, ⟨"a".data, 7000⟩), (⟨8192, 16383⟩, ⟨"b".data, 7001⟩)],
         some [(⟨0, 16383⟩, ⟨"c".data, 7002⟩)]]
      = [(⟨0, 8191⟩, ⟨"a".data, 7000⟩), (⟨8192, 16383⟩, ⟨"b".data, 7001⟩)] := by
  exact ⟨rfl, by decide⟩

/-- `RedisCluster::findNodeEntryUnguarded(const StorageId&)`:
`m_cluster_map.find(id)` with the transparent comparator finds the entry
whose range neither lies below nor above the id's slot, i.e. the entry with
`compare(id) == 0`; `NULL` (here `none`) when no entry contains the slot. -/
def findNodeEntryUnguarded (m : ClusterMap) (id : StorageId) : Option ClusterNode :=
  match m.find? (fun e => e.1.compareId id == 0) with
  | none => none
  | some e => some e.2

/-- Outcome of `RedisCluster::dispatchConnectionUnguarded(const ClusterNode*)`. -/
inductive DispatchOutcome where
  | connectedTo (node : ClusterNode)
  | nullDereference
deriving DecidableEq, Repr

/-- `RedisCluster::dispatchConnectionUnguarded`: looks the node pointer up in
the connection cache and otherwise inserts `node->connect(m_config)`.  On a
fresh (or freshly cleared) cache the lookup misses, so `connect` is invoked
on `node`; when the caller passed `NULL` — exactly what
`findNodeEntryUnguarded` returns for an uncovered slot — the call
dereferences a null pointer. -/
def dispatchConnectionUnguarded : Option ClusterNode → DispatchOutcome
  | some n => .connectedTo n
  | none => .nullDereference

/-- The lookup-then-dispatch prefix of `RedisCluster::wrappedCall`: under the
read lock, `findNodeEntryUnguarded(id)` followed by
`dispatchConnectionUnguarded(node)` with no intervening null check. -/
def wrappedCallDispatch (m : ClusterMap) (id : StorageId) : DispatchOutcome :=
  dispatchConnectionUnguarded (findNodeEntryUnguarded m id)

/-- C8 — evaluation at the failing input: on the empty slot map (the state
after a failed startup, see the C2 result) the lookup yields `NULL` and
`dispatchConnectionUnguarded` dereferences it; on a map covering the slot
the dispatch reaches the owning node. -/
theorem wrappedCall_nullDereference_on_empty_map :
    wrappedCallDispatch [] ⟨"foo".data, [], []⟩ = DispatchOutcome.nullDereference
    ∧ wrappedCallDispatch [(⟨0, 16383⟩, ⟨"a".data, 7000⟩)] ⟨"foo".data, [], []⟩
        = DispatchOutcome.connectedTo ⟨"a".data, 7000⟩
    ∧ wrappedCallDispatch [(⟨0, 1307⟩, ⟨"a".data, 7000⟩)] ⟨"foo".data, [], []⟩
        = DispatchOutcome.nullDereference := by
  exact ⟨by decide, by decide, by decide⟩

/-! ## Retry back-off (`RedisCluster::tryWaitWithRetryNumber`) -/

/-- The retry-related fields of `RedisConfig` (`redis.h`): `maxRetries`,
`baseWait` and `maxWait` are C++ `unsigned int` values. -/
structure RetryConfig where
  maxRetries : Nat
  baseWait : Nat
  maxWait : Nat
deriving DecidableEq, Repr

/-- `waitTime` (anonymous namespace, `redis-cluster.cpp`): a configured cap
of `0` becomes `static_cast<unsigned>(-1)`, i.e. `UINT_MAX`. -/
def waitTime (config : Nat) : Nat :=
  if config = 0 then 2 ^ 32 - 1 else config

/-- `RedisCluster::tryWaitWithRetryNumber`: returns whether the retry
proceeds, paired with the `usleep` argument in microseconds.  The source
computes `m_config.baseWait * (1 << retryUnsigned)` and
`1000 * std::min(toWait, waitTime(m_config.maxWait))` in `unsigned int`
arithmetic, so both products wrap modulo `2^32` (the `int` shift `1 << r`
is undefined for `r ≥ 31`; it is modelled as the wrapped power of two). -/
def tryWaitWithRetryNumber (cfg : RetryConfig) (retry : Nat) : Bool × Nat :=
  if cfg.maxRetries < retry then (false, 0)
  else
    let toWait := cfg.baseWait * ((1 <<< retry) % 2 ^ 32) % 2 ^ 32
    let usTrueWait := 1000 * min toWait (waitTime cfg.maxWait) % 2 ^ 32
    (true, usTrueWait)

/-- C9 (amended) — the router retries exactly when the 0-based attempt `r`
satisfies `r ≤ maxRetries`, and before the retry sleeps
`(1000 · min(baseWait · 2^r mod 2^32, maxWaitEff)) mod 2^32` microseconds,
where `maxWaitEff` is `maxWait` with `0` replaced by `UINT_MAX`; this equals
the claimed exact `min(baseWait · 2^r, maxWaitEff)` milliseconds whenever
the two 32-bit products do not wrap (the claim's unconditional exactness
fails, see the counterexample). -/
theorem tryWait_retry_condition_and_backoff (cfg : RetryConfig) (r : Nat) :
    ((tryWaitWithRetryNumber cfg r).1 = true ↔ r ≤ cfg.maxRetries)
    ∧ (r ≤ cfg.maxRetries →
        (tryWaitWithRetryNumber cfg r).2
          = 1000 * min (cfg.baseWait * 2 ^ r % 2 ^ 32) (waitTime cfg.maxWait) % 2 ^ 32)
    ∧ (r ≤ cfg.maxRetries → cfg.baseWait * 2 ^ r < 2 ^ 32 →
        1000 * min (cfg.baseWait * 2 ^ r) (waitTime cfg.maxWait) < 2 ^ 32 →
        (tryWaitWithRetryNumber cfg r).2
          = 1000 * min (cfg.baseWait * 2 ^ r) (waitTime cfg.maxWait)) := by
  have hshift : (1 : Nat) <<< r = 2 ^ r := by
    rw [Nat.shiftLeft_eq, one_mul]
  have hval : r ≤ cfg.maxRetries →
      (tryWaitWithRetryNumber cfg r).2
        = 1000 * min (cfg.baseWait * 2 ^ r % 2 ^ 32) (waitTime cfg.maxWait) % 2 ^ 32 := by
    intro h
    simp [tryWaitWithRetryNumber, Nat.not_lt.mpr h, hshift]
  refine ⟨?_, hval, ?_⟩
  · rcases Nat.lt_or_ge cfg.maxRetries r with hc | hc
    · simp [tryWaitWithRetryNumber, hc, not_le.mpr hc]
    · simp [tryWaitWithRetryNumber, Nat.not_lt.mpr hc, hc]
  · intro h hbw hmin
    rw [hval h, Nat.mod_eq_of_lt hbw, Nat.mod_eq_of_lt hmin]

/-- C9 counterexample — for the configured values `baseWait = 2^31`,
`maxWait = 0` (unbounded) at attempt `r = 1`, the code's 32-bit product
`baseWait * (1 << 1)` wraps to `0` and the router sleeps `0` microseconds,
whereas the claimed exact `min(baseWait · 2^r, UINT_MAX)` milliseconds is
the nonzero `4294967295`; so the arithmetic is not wrap-free for all
configured `baseWait` and `maxRetries` values. -/
theorem tryWait_backoff_wraps :
    tryWaitWithRetryNumber ⟨5, 2 ^ 31, 0⟩ 1 = (true, 0)
    ∧ min (2 ^ 31 * 2 ^ 1) (waitTime 0) ≠ 0 := by
  exact ⟨by decide, by decide⟩

/-- Witness for the amended C9 theorem at the default configuration
`maxRetries = 5`, `baseWait = 500`, `maxWait = 0` and attempt `r = 2`. -/
theorem tryWait_retry_condition_and_backoff_witness :
    ((tryWaitWithRetryNumber ⟨5, 500, 0⟩ 2).1 = true ↔ 2 ≤ 5)
    ∧ (tryWaitWithRetryNumber ⟨5, 500, 0⟩ 2).2
        = 1000 * min (500 * 2 ^ 2) (waitTime 0) :=
  ⟨(tryWait_retry_condition_and_backoff ⟨5, 500, 0⟩ 2).1,
    (tryWait_retry_condition_and_backoff ⟨5, 500, 0⟩ 2).2.2
      (by decide) (by decide) (by decide)⟩

/-! ## Versioned storage operations (`src/redis-connection.cpp`)

The Redis server itself is external; its state for a single storage id is
the pair of the data key and the companion version key, each an optional
value together with its absolute expiration time. -/

/-- Server state for one storage id: the data key (value, expiration) and
the version key (counter, expiration). -/
structure KeyStore where
  data : Option (List Char × Int)
  ver : Option (Int × Int)
deriving DecidableEq, Repr

/-- `RedisConnection::set`: the pipelined
`MULTI / SET <id> <v> NX EXAT <e> / SET version.of:<id> 1 NX EXAT <e> / EXEC`
transaction followed by the source's inspection of the two `EXEC` results:
a `nil` data result returns `false` at once; a `nil` version result warns,
`UNLINK`s both keys and returns `false`; otherwise `true`. -/
def RedisConnection.set (s : KeyStore) (value : List Char) (expiration : Int) :
    Bool × KeyStore :=
  let dataOk := s.data.isNone
  let verOk := s.ver.isNone
  let applied := KeyStore.mk
    (if dataOk then some (value, expiration) else s.data)
    (if verOk then some (1, expiration) else s.ver)
  if !dataOk then (false, applied)
  else if !verOk then (false, KeyStore.mk none none)
  else (true, applied)

/-- C3 counterexample — starting from a store where the data key exists and
the version key does not, exactly one of the two `NX` `SET`s succeeds (the
version one), yet `set` returns `false` from the data-`nil` branch without
unlinking anything: the stray version key the transaction just created is
left behind, contradicting the claim that the stray key is unlinked before
`false` is returned. -/
theorem set_leaves_stray_version_key :
    RedisConnection.set (KeyStore.mk (some (['x'], 5)) none) ['y'] 9
      = (false, KeyStore.mk (some (['x'], 5)) (some (1, 9))) := by decide

/-- C3 (amended) — `set` creates both keys (the version key at `1`) iff
neither exists, returning `true` exactly then and `false` when the data key
already exists; when only the version key pre-exists, the freshly created
data key and the version key are both unlinked before `false` is returned
with a warning; but when the data key pre-exists, `false` is returned
without any cleanup, so a version key created by the transaction's second
`NX` `SET` is left behind. -/
theorem set_creates_both_iff_neither_exists (s : KeyStore) (v : List Char) (e : Int) :
    ((RedisConnection.set s v e).1 = true ↔ s.data = none ∧ s.ver = none)
    ∧ (s.data = none → s.ver = none →
        RedisConnection.set s v e = (true, KeyStore.mk (some (v, e)) (some (1, e))))
    ∧ (s.data = none → s.ver ≠ none →
        RedisConnection.set s v e = (false, KeyStore.mk none none))
    ∧ (s.data ≠ none →
        RedisConnection.set s v e
          = (false, KeyStore.mk s.data (if s.ver.isNone then some (1, e) else s.ver))) := by
  rcases s with ⟨sd, sv⟩
  rcases sd with _ | x <;> rcases sv with _ | y <;>
    simp [RedisConnection.set]

/-- Witness for the amended C3 theorem: both branches of the conclusion at
concrete stores. -/
theorem set_creates_both_iff_neither_exists_witness :
    ((KeyStore.mk none (none : Option (Int × Int))).data = none
      ∧ RedisConnection.set (KeyStore.mk none none) ['h'] 7
          = (true, KeyStore.mk (some (['h'], 7)) (some (1, 7))))
    ∧ ((KeyStore.mk (some (['x'], 5)) (some ((2 : Int), (5 : Int)))).data ≠ none
      ∧ RedisConnection.set (KeyStore.mk (some (['x'], 5)) (some (2, 5))) ['h'] 7
          = (false, KeyStore.mk (some (['x'], 5)) (some (2, 5)))) :=
  ⟨⟨rfl, (set_creates_both_iff_neither_exists (KeyStore.mk none none) ['h'] 7).2.1
      rfl rfl⟩,
    ⟨by decide, by
      have h := (set_creates_both_iff_neither_exists
        (KeyStore.mk (some (['x'], 5)) (some (2, 5))) ['h'] 7).2.2.2 (by decide)
      simpa using h⟩⟩

/-- The optimistic-concurrency retry loop of
`RedisConnection::updateVersioned`, one iteration per unit of `fuel`
(the source's `optimisticConcurrencyRetryCount` is 3).  Each iteration:
`WATCH version.of:<id>`, read the current version (`getOnlyVersion`: a `GET`
whose `nil` reply for a missing key fails the `STRING` type check and raises
`IOException`), return `-1` on a version mismatch, then run
`MULTI / SET <id> <v> XX KEEPTTL / INCR version.of:<id> /
[EXPIREAT <id> e / EXPIREAT version.of:<id> e when e ≠ 0] / EXEC`.
A concurrent writer that touches the watched key between the read and the
`EXEC` makes `EXEC` reply `nil`; those writers are supplied as the
`conflicts` oracle, one replacement store per interfered iteration, and the
loop retries.  Without interference the transaction applies: `SET … XX`
replies `nil` for a missing data key, which the `STATUS` check on
`element[0]` turns into `IOException` (the `INCR` has run regardless);
otherwise the `INCR` result `currentVersion + 1` is returned (the
`incr - 1 != currentVersion` re-check cannot fire without interference,
which `EXEC` would have reported as `nil`). -/
def updateVersionedLoop (s : KeyStore) (value : List Char) (expiration : Int)
    (ifVersion : Int) (conflicts : List KeyStore) :
    Nat → Except RedisFault Int × KeyStore
  | 0 => (.ok 0, s)
  | fuel + 1 =>
    match s.ver with
    | none => (.error .ioError, s)
    | some (currentVersion, verExp) =>
      if currentVersion ≠ ifVersion then (.ok (-1), s)
      else
        match conflicts with
        | interfering :: rest =>
          updateVersionedLoop interfering value expiration ifVersion rest fuel
        | [] =>
          match s.data with
          | none =>
            (.error .ioError,
              KeyStore.mk none
                (some (currentVersion + 1,
                  if expiration ≠ 0 then expiration else verExp)))
          | some (_, dataExp) =>
            (.ok (currentVersion + 1),
              KeyStore.mk
                (some (value, if expiration ≠ 0 then expiration else dataExp))
                (some (currentVersion + 1,
                  if expiration ≠ 0 then expiration else verExp)))

/-- `RedisConnection::updateVersioned`: the loop with
`optimisticConcurrencyRetryCount = 3` attempts; after exhaustion it logs a
warning and returns `0`. -/
def RedisConnection.updateVersioned (s : KeyStore) (value : List Char)
    (expiration : Int) (ifVersion : Int) (conflicts : List KeyStore) :
    Except RedisFault Int × KeyStore :=
  updateVersionedLoop s value expiration ifVersion conflicts 3

/-- C4 — for a store whose version key holds `k`: when `k` differs from
`ifVersion` the call returns the value `-1` (not an error) and leaves the
store unchanged, whatever the interference; when `k = ifVersion` and the
transaction commits, the call returns the new version `k + 1`; and when all
3 optimistic attempts are lost to interfering writers, the call returns `0`
as a value, without raising. -/
theorem updateVersioned_cas_semantics (s c1 c2 c3 : KeyStore) (value : List Char)
    (expiration ifVersion k ke ke1 ke2 de : Int) (d : List Char)
    (hver : s.ver = some (k, ke)) :
    (∀ conflicts, k ≠ ifVersion →
      RedisConnection.updateVersioned s value expiration ifVersion conflicts
        = (.ok (-1), s))
    ∧ (k = ifVersion → s.data = some (d, de) →
      (RedisConnection.updateVersioned s value expiration ifVersion []).1
        = .ok (k + 1))
    ∧ (k = ifVersion → c1.ver = some (ifVersion, ke1) → c2.ver = some (ifVersion, ke2) →
      RedisConnection.updateVersioned s value expiration ifVersion [c1, c2, c3]
        = (.ok 0, c3)) := by
  refine ⟨?_, ?_, ?_⟩
  · intro conflicts hne
    simp [RedisConnection.updateVersioned, updateVersionedLoop, hver, hne]
  · intro hk hdata
    subst hk
    simp [RedisConnection.updateVersioned, updateVersionedLoop, hver, hdata]
  · intro hk h1 h2
    subst hk
    simp [RedisConnection.updateVersioned, updateVersionedLoop, hver, h1, h2]

/-- Witness for the C4 theorem at a concrete store holding version `3`:
the CAS mismatch case (`ifVersion = 2` gives `-1`), the success case
(`ifVersion = 3` gives `4`) and the interference-exhaustion case (three
interfering writers give `0`). -/
theorem updateVersioned_cas_semantics_witness :
    (KeyStore.mk (some (['a'], 0)) (some (3, 0))).ver = some ((3 : Int), (0 : Int))
    ∧ RedisConnection.updateVersioned
        (KeyStore.mk (some (['a'], 0)) (some (3, 0))) ['n'] 0 2 []
        = (.ok (-1), KeyStore.mk (some (['a'], 0)) (some (3, 0)))
    ∧ (RedisConnection.updateVersioned
        (KeyStore.mk (some (['a'], 0)) (some (3, 0))) ['n'] 0 3 []).1 = .ok 4
    ∧ RedisConnection.updateVersioned
        (KeyStore.mk (some (['a'], 0)) (some (3, 0))) ['n'] 0 3
        [KeyStore.mk none (some (3, 0)), KeyStore.mk none (some (3, 0)),
          KeyStore.mk (some (['z'], 1)) (some (9, 1))]
        = (.ok 0, KeyStore.mk (some (['z'], 1)) (some (9, 1))) :=
  ⟨rfl,
    (updateVersioned_cas_semantics (KeyStore.mk (some (['a'], 0)) (some (3, 0)))
      (KeyStore.mk none (some (3, 0))) (KeyStore.mk none (some (3, 0)))
      (KeyStore.mk (some (['z'], 1)) (some (9, 1))) ['n'] 0 2 3 0 0 0 0 ['a']
      rfl).1 [] (by decide),
    (updateVersioned_cas_semantics (KeyStore.mk (some (['a'], 0)) (some (3, 0)))
      (KeyStore.mk none (some (3, 0))) (KeyStore.mk none (some (3, 0)))
      (KeyStore.mk (some (['z'], 1)) (some (9, 1))) ['n'] 0 3 3 0 0 0 0 ['a']
      rfl).2.1 rfl rfl,
    (updateVersioned_cas_semantics (KeyStore.mk (some (['a'], 0)) (some (3, 0)))
      (KeyStore.mk none (some (3, 0))) (KeyStore.mk none (some (3, 0)))
      (KeyStore.mk (some (['z'], 1)) (some (9, 1))) ['n'] 0 3 3 0 0 0 0 ['a']
      rfl).2.2 rfl rfl rfl⟩

/-! ## forceGet (`RedisConnection::forceGet`) -/

/-- A single `redisReply` as far as `forceGet` inspects it: `nil`, a bulk
string holding the decimal rendering of an integer (`bulkNum`, what the
version key's `GET` returns), an opaque bulk string (`bulkStr`), or an
integer reply (`int`). -/
inductive Reply where
  | nil
  | bulkNum (v : Int)
  | bulkStr (s : List Char)
  | int (v : Int)
deriving DecidableEq, Repr

/-- Reply of `GET version.of:<id>`. -/
def getVersionReply (s : KeyStore) : Reply :=
  match s.ver with
  | none => .nil
  | some (v, _) => .bulkNum v

/-- Reply of `GET <id>`. -/
def getDataReply (s : KeyStore) : Reply :=
  match s.data with
  | none => .nil
  | some (v, _) => .bulkStr v

/-- Reply of `EXPIRETIME <id>`: `-2` when the key does not exist. -/
def expireTimeReply (s : KeyStore) : Reply :=
  match s.data with
  | none => .int (-2)
  | some (_, e) => .int e

/-- Access to `reply->element[i]`: an index at or past `reply->elements` is
an out-of-bounds read of the `redisReply` element array (undefined behavior
in the source), modelled as the distinguished `oobRead` fault. -/
def elementAt (elems : List Reply) (i : Nat) : Except RedisFault Reply :=
  match elems.get? i with
  | some r => .ok r
  | none => .error .oobRead

/-- The result triple of `forceGet`: the returned version and the two
optional out-parameters. -/
structure GetResult where
  version : Int
  value : Option (List Char)
  expiration : Option Int
deriving DecidableEq, Repr

/-- `RedisConnection::forceGet`: pipelined
`MULTI / GET version.of:<id> / [GET <id>] / [EXPIRETIME <id>] / EXEC`, where
the optional commands are appended only for present out-parameters.  The
`EXEC` array length is checked against `1 + out_value + out_expiration`;
then the source tests `element[0]->type == NIL || element[1]->type == NIL`
— `element[1]` unconditionally — and returns version `0` when either is
`nil`; otherwise `element[0]` is parsed as the version, `element[1]` (when
`out_value` is present) as the value, and `element[expiration_index]`
(`2` after a value, else `1`) as the expiration. -/
def RedisConnection.forceGet (s : KeyStore) (outValue outExpiration : Bool) :
    Except RedisFault GetResult := do
  let elems : List Reply :=
    [getVersionReply s]
      ++ (if outValue then [getDataReply s] else [])
      ++ (if outExpiration then [expireTimeReply s] else [])
  if elems.length ≠ 1 + (if outValue then 1 else 0) + (if outExpiration then 1 else 0) then
    throw .ioError
  let e0 ← elementAt elems 0
  let e1 ← elementAt elems 1
  if e0 = Reply.nil ∨ e1 = Reply.nil then
    return GetResult.mk 0 none none
  let version ←
    match e0 with
    | .bulkNum v => pure v
    | .bulkStr _ => pure 0
    | _ => throw .ioError
  let value ←
    if outValue then
      match e1 with
      | .bulkStr str => pure (some str)
      | _ => throw .ioError
    else pure none
  let expirationIndex := if outValue then 2 else 1
  let expiration ←
    if outExpiration then do
      let ee ← elementAt elems expirationIndex
      match ee with
      | .int v => pure (some v)
      | _ => throw .ioError
    else pure none
  return GetResult.mk version value expiration

/-- C7 — evaluation at the failing inputs: with both out-parameters omitted
the `EXEC` array has a single element, yet the source still reads
`element[1]`, an out-of-bounds access; and with only the expiration
requested, `element[1]` is the `EXPIRETIME` integer, so an absent data key
is not detected and the version (`7`, not `0`) is returned.  The nil check
does return `0` for an absent data or version key in the combinations that
request the value. -/
theorem forceGet_reads_past_exec_reply :
    RedisConnection.forceGet (KeyStore.mk (some (['x'], 9)) (some (4, 9))) false false
      = .error .oobRead
    ∧ RedisConnection.forceGet (KeyStore.mk none (some (7, 0))) false true
        = .ok (GetResult.mk 7 none (some (-2)))
    ∧ RedisConnection.forceGet (KeyStore.mk none (some (7, 0))) true true
        = .ok (GetResult.mk 0 none none)
    ∧ RedisConnection.forceGet (KeyStore.mk (some (['x'], 9)) none) true true
        = .ok (GetResult.mk 0 none none)
    ∧ RedisConnection.forceGet (KeyStore.mk (some (['x'], 9)) (some (4, 9))) true true
        = .ok (GetResult.mk 4 (some ['x']) (some 9)) := by
  exact ⟨rfl, rfl, rfl, rfl, rfl⟩

end spredis
